import Mathlib

/-!
Verification of the data-preparation pipelines in
`analyses/gpu-cellassign-testing` (two scripts: `scvi.py`, Pipeline A, and
`small-cellassign.py`, Pipeline B).

The scripts are linear: they load an annotated expression matrix, do light
preprocessing, and hand fixed parameters to an external modelling library.
We embed the preprocessing shallowly:

* an expression matrix is a list of rows (one row per cell, rational
  entries standing for the numeric counts);
* Python objects that can alias (the matrices held by `adata.X`,
  `adata.layers[...]`, and the `obs` metadata tables) live in an explicit
  store; `.copy()` is modelled as a fresh allocation, attribute mutation as
  a store write.  This makes the copy-independence / no-aliasing claims
  expressible;
* `list(set(a) & set(b))` enumerates the intersection in the hash-table
  iteration order of the Python runtime, which is not a function of the
  inputs (string hashing is randomized per process).  We therefore pass the
  enumeration order explicitly as a parameter `order`: a run of the script
  corresponds to one choice of `order` that is duplicate-free and contains
  every string the run ever puts into a set.
-/

set_option autoImplicit false

namespace OpenScPCA

/-! ### Heap model

Mutable Python objects live in a `Store`; a `Ref` is an index into it.
`alloc` models object creation (in particular `.copy()`), `write` models
in-place mutation through a reference. -/

abbrev Ref := Nat

/-- A store of mutable objects of type `α`, addressed by `Ref`. -/
structure Store (α : Type) where
  cells : List α

/-- Dereference `r`; a dangling reference reads the default value. -/
def Store.read {α : Type} [Inhabited α] (s : Store α) (r : Ref) : α :=
  s.cells.getD r default

/-- Allocate a fresh object holding `v`, returning the new store and the
fresh reference. -/
def Store.alloc {α : Type} (s : Store α) (v : α) : Store α × Ref :=
  (⟨s.cells ++ [v]⟩, s.cells.length)

/-- Overwrite the object at `r` with `v` (in-place mutation). -/
def Store.write {α : Type} (s : Store α) (r : Ref) (v : α) : Store α :=
  ⟨s.cells.set r v⟩

/-- A reference is valid when it points into the store. -/
def Store.valid {α : Type} (s : Store α) (r : Ref) : Prop :=
  r < s.cells.length

instance {α : Type} (s : Store α) (r : Ref) : Decidable (s.valid r) :=
  inferInstanceAs (Decidable (r < s.cells.length))

theorem Store.read_alloc_lt {α : Type} [Inhabited α] (s : Store α) (v : α)
    (r : Ref) (h : s.valid r) : (s.alloc v).1.read r = s.read r := by
  simp only [Store.read, Store.alloc]
  exact List.getD_append _ _ _ _ h

theorem Store.read_alloc_new {α : Type} [Inhabited α] (s : Store α) (v : α) :
    (s.alloc v).1.read (s.alloc v).2 = v := by
  simp [Store.read, Store.alloc, List.getD_eq_getElem?_getD]

theorem Store.read_write_ne {α : Type} [Inhabited α] (s : Store α)
    (r r' : Ref) (v : α) (h : r' ≠ r) : (s.write r' v).read r = s.read r := by
  simp [Store.read, Store.write, List.getD_eq_getElem?_getD,
    List.getElem?_set_ne h]

theorem Store.read_write_self {α : Type} [Inhabited α] (s : Store α)
    (r : Ref) (v : α) (h : s.valid r) : (s.write r v).read r = v := by
  simp [Store.read, Store.write, List.getD_eq_getElem?_getD,
    List.getElem?_set_self h]

theorem Store.alloc_snd {α : Type} (s : Store α) (v : α) :
    (s.alloc v).2 = s.cells.length := rfl

theorem Store.alloc_length {α : Type} (s : Store α) (v : α) :
    (s.alloc v).1.cells.length = s.cells.length + 1 := by
  simp [Store.alloc]

theorem Store.valid_alloc {α : Type} (s : Store α) (v : α) (r : Ref)
    (h : s.valid r) : (s.alloc v).1.valid r := by
  simp only [Store.valid, Store.alloc, List.length_append, List.length_cons,
    List.length_nil]
  exact Nat.lt_succ_of_lt h

/-! ### Expression data

A matrix is a list of rows, one per cell; `obs` metadata is an association
table of named per-cell columns (newer bindings shadow older ones, as a
dataframe column assignment does). -/

abbrev Mat := List (List ℚ)

abbrev ObsTable := List (String × List ℚ)

/-- Look up an `obs` column by name; a missing column reads as empty. -/
def obsCol (t : ObsTable) (k : String) : List ℚ :=
  ((t.find? (fun p => p.1 == k)).getD (k, [])).2

/-- Annotated dataset as used by Pipeline B (`small-cellassign.py`): gene
identifiers (`adata.var_names`), a reference to the expression matrix
(`adata.X`) and a reference to the per-cell metadata table (`adata.obs`). -/
structure AnnDataB where
  var_names : List String
  xRef : Ref
  obsRef : Ref

/-- Annotated dataset as used by Pipeline A (`scvi.py`): a reference to the
working matrix (`adata.X`), a reference to the raw matrix (`adata.raw.X`)
and the named alternate layers (`adata.layers`). -/
structure AnnDataA where
  xRef : Ref
  rawXRef : Ref
  layers : List (String × Ref)

/-- Reference of a named layer; a missing layer reads as a dangling
reference past any allocated object. -/
def layerRef (a : AnnDataA) (k : String) : Ref :=
  ((a.layers.find? (fun p => p.1 == k)).getD (k, 0)).2

/-! ### Pipeline B preprocessing (`small-cellassign.py`, lines 19-25) -/

/-- Line 19, `shared_genes = list(set(ref_matrix.index) & set(adata.var_names))`:
the elements lying in both inputs, enumerated in the runtime's hash-table
iteration order `order`.  A faithful `order` is duplicate-free and contains
every identifier occurring in either input; the order of `refIndex` and
`varNames` themselves is immaterial because only membership is tested. -/
def sharedGenes (order refIndex varNames : List String) : List String :=
  order.filter (fun g => refIndex.contains g && varNames.contains g)

/-- Value of gene `g` in a cell's row, given the dataset's gene order
(column lookup by identifier, as label-based slicing does). -/
def colOf (varNames : List String) (row : List ℚ) (g : String) : ℚ :=
  row.getD (varNames.indexOf g) 0

/-- Line 20, the matrix part of `adata[:, shared_genes]`: every cell's row
restricted to the selected genes, in the selected order.  Rows are neither
dropped nor reordered. -/
def subsetX (varNames shared : List String) (m : Mat) : Mat :=
  m.map (fun row => shared.map (colOf varNames row))

/-- Line 21, `.tocsr()`: a change of sparse representation only; on the
abstract matrix of values it is the identity. -/
def tocsr (m : Mat) : Mat := m

/-- Line 24, `lib_size = adata.X.sum(1)`: per-cell total counts. -/
def libSize (m : Mat) : List ℚ := m.map List.sum

/-- The `np.mean` of a list (sum divided by length). -/
def npMean (xs : List ℚ) : ℚ := xs.sum / xs.length

/-- Line 25, the vector `lib_size / np.mean(lib_size)`. -/
def sizeFactorVec (lib : List ℚ) : List ℚ :=
  lib.map (fun t => t / npMean lib)

/-- Size factors of a matrix: each cell's total over the mean total. -/
def sizeFactors (m : Mat) : List ℚ := sizeFactorVec (libSize m)

/-- Lines 19-25 of `small-cellassign.py`, the whole Pipeline B
preprocessing, acting on the store of matrices `ms`, the store of metadata
tables `os` and the loaded dataset `a`:

* `shared_genes = list(set(ref_matrix.index) & set(adata.var_names))`
* `subset_adata = adata[:, shared_genes].copy()` — fresh matrix and fresh
  metadata table (the copy shares nothing with `adata`);
* `subset_adata.X = subset_adata.X.tocsr()` — rebinds `X` to the converted
  matrix (a new object);
* `lib_size = adata.X.sum(1)` — read from the original, unsubsetted
  dataset;
* `subset_adata.obs["size_factor"] = lib_size / np.mean(lib_size)` —
  in-place mutation of the subset's metadata table.

Returns the final stores and the subsetted dataset handed to the external
model.  The script performs no input validation of its own: there is no
error case in this function because there is none in the code. -/
def pipelineB (order refIndex : List String) (ms : Store Mat)
    (os : Store ObsTable) (a : AnnDataB) :
    Store Mat × Store ObsTable × AnnDataB :=
  let shared := sharedGenes order refIndex a.var_names
  let p1 := ms.alloc (subsetX a.var_names shared (ms.read a.xRef))
  let q1 := os.alloc (os.read a.obsRef)
  let subset0 : AnnDataB := ⟨shared, p1.2, q1.2⟩
  let p2 := p1.1.alloc (tocsr (p1.1.read subset0.xRef))
  let subset : AnnDataB := { subset0 with xRef := p2.2 }
  let lib := libSize (p2.1.read a.xRef)
  let os2 := q1.1.write subset.obsRef
    (("size_factor", sizeFactorVec lib) :: q1.1.read subset.obsRef)
  (p2.1, os2, subset)

/-! ### Pipeline A preprocessing (`scvi.py`, line 12) -/

/-- Line 12, `adata.layers["counts"] = adata.raw.X.copy()`: allocate an
independent copy of the raw matrix and bind it as the layer `counts`. -/
def addCountsLayer (ms : Store Mat) (a : AnnDataA) : Store Mat × AnnDataA :=
  let p := ms.alloc (ms.read a.rawXRef)
  (p.1, { a with layers := ("counts", p.2) :: a.layers })

/-! ### Pipeline A model invocation (`scvi.py`, lines 5 and 15-17) -/

/-- Arguments of `scvi.model.SCVI.setup_anndata` on line 15. -/
structure SCVISetupArgs where
  layer : String
  batch_key : String
deriving DecidableEq

/-- Arguments of the `scvi.model.SCVI` constructor on line 17. -/
structure SCVIModelArgs where
  n_layers : Nat
  n_latent : Nat
  gene_likelihood : String
deriving DecidableEq

/-- The fixed parameters `scvi.py` hands to the external library: the seed
set on line 5, the registration arguments of line 15 and the constructor
arguments of line 17. -/
structure PipelineACalls where
  seed : Nat
  setup : SCVISetupArgs
  model : SCVIModelArgs
deriving DecidableEq

/-- The invocation actually written in `scvi.py`:
`scvi.settings.seed = 2024`;
`scvi.model.SCVI.setup_anndata(adata, layer="counts", batch_key="sample_id")`;
`scvi.model.SCVI(adata, n_layers=2, n_latent=30, gene_likelihood="nb")`. -/
def pipelineACalls : PipelineACalls :=
  { seed := 2024
    setup := { layer := "counts", batch_key := "sample_id" }
    model := { n_layers := 2, n_latent := 30, gene_likelihood := "nb" } }

/-! ### Characterisation of the Pipeline B result -/

theorem pipelineB_var_names (order refIndex : List String) (ms : Store Mat)
    (os : Store ObsTable) (a : AnnDataB) :
    (pipelineB order refIndex ms os a).2.2.var_names
      = sharedGenes order refIndex a.var_names := rfl

theorem pipelineB_obsRef (order refIndex : List String) (ms : Store Mat)
    (os : Store ObsTable) (a : AnnDataB) :
    (pipelineB order refIndex ms os a).2.2.obsRef = os.cells.length := rfl

theorem pipelineB_xRef (order refIndex : List String) (ms : Store Mat)
    (os : Store ObsTable) (a : AnnDataB) :
    (pipelineB order refIndex ms os a).2.2.xRef = ms.cells.length + 1 := by
  simp only [pipelineB]
  rw [Store.alloc_snd, Store.alloc_length]

theorem pipelineB_read_orig_X (order refIndex : List String) (ms : Store Mat)
    (os : Store ObsTable) (a : AnnDataB) (hx : ms.valid a.xRef) :
    (pipelineB order refIndex ms os a).1.read a.xRef = ms.read a.xRef := by
  simp only [pipelineB]
  rw [Store.read_alloc_lt _ _ _ (Store.valid_alloc _ _ _ hx),
    Store.read_alloc_lt _ _ _ hx]

theorem pipelineB_read_orig_obs (order refIndex : List String)
    (ms : Store Mat) (os : Store ObsTable) (a : AnnDataB)
    (ho : os.valid a.obsRef) :
    (pipelineB order refIndex ms os a).2.1.read a.obsRef
      = os.read a.obsRef := by
  simp only [pipelineB]
  rw [Store.read_write_ne, Store.read_alloc_lt _ _ _ ho]
  rw [Store.alloc_snd]
  exact Nat.ne_of_gt ho

theorem pipelineB_read_subset_X (order refIndex : List String)
    (ms : Store Mat) (os : Store ObsTable) (a : AnnDataB) :
    (pipelineB order refIndex ms os a).1.read
        (pipelineB order refIndex ms os a).2.2.xRef
      = subsetX a.var_names (sharedGenes order refIndex a.var_names)
          (ms.read a.xRef) := by
  simp only [pipelineB]
  rw [Store.read_alloc_new, Store.read_alloc_new]
  rfl

theorem pipelineB_read_subset_obs (order refIndex : List String)
    (ms : Store Mat) (os : Store ObsTable) (a : AnnDataB)
    (hx : ms.valid a.xRef) :
    (pipelineB order refIndex ms os a).2.1.read
        (pipelineB order refIndex ms os a).2.2.obsRef
      = ("size_factor", sizeFactors (ms.read a.xRef)) :: os.read a.obsRef := by
  have hX := pipelineB_read_orig_X order refIndex ms os a hx
  simp only [pipelineB] at hX ⊢
  rw [Store.read_write_self]
  · rw [hX, Store.read_alloc_new, sizeFactors]
  · rw [Store.alloc_snd]
    rw [Store.valid, Store.alloc_length]
    exact Nat.lt_succ_self _

/-! ### General lemmas -/

theorem obsCol_cons_self (t : ObsTable) (k : String) (v : List ℚ) :
    obsCol ((k, v) :: t) k = v := by
  simp [obsCol]

theorem getD_map_of_lt {α β : Type} (f : α → β) (l : List α) (i : Nat)
    (d : α) (e : β) (h : i < l.length) :
    (l.map f).getD i e = f (l.getD i d) := by
  have h2 : i < (l.map f).length := by simpa using h
  rw [List.getD_eq_getElem _ _ h2, List.getD_eq_getElem _ _ h]
  simp

theorem sizeFactors_length (m : Mat) : (sizeFactors m).length = m.length := by
  simp [sizeFactors, sizeFactorVec, libSize]

theorem sizeFactors_getD (m : Mat) (i : Nat) (hi : i < m.length) :
    (sizeFactors m).getD i 0 = (m.getD i []).sum / npMean (libSize m) := by
  have h1 : i < (libSize m).length := by simpa [libSize] using hi
  rw [sizeFactors, sizeFactorVec, getD_map_of_lt _ _ _ 0 0 h1, libSize,
    getD_map_of_lt _ _ _ [] 0 hi]

theorem subsetX_length (varNames shared : List String) (m : Mat) :
    (subsetX varNames shared m).length = m.length := by
  simp [subsetX]

theorem subsetX_getD (varNames shared : List String) (m : Mat) (i : Nat)
    (hi : i < m.length) :
    (subsetX varNames shared m).getD i []
      = shared.map (colOf varNames (m.getD i [])) := by
  rw [subsetX, getD_map_of_lt _ _ _ [] [] hi]

theorem sharedGenes_mem (order refIndex varNames : List String)
    (g : String) :
    g ∈ sharedGenes order refIndex varNames ↔
      g ∈ order ∧ g ∈ refIndex ∧ g ∈ varNames := by
  simp [sharedGenes, List.mem_filter]

theorem sharedGenes_nodup (order refIndex varNames : List String)
    (h : order.Nodup) : (sharedGenes order refIndex varNames).Nodup :=
  h.filter _

theorem pair_perm_cases {l : List String} {a b : String}
    (h : l.Perm [a, b]) : l = [a, b] ∨ l = [b, a] := by
  match l, h.length_eq, h with
  | [x, y], _, h =>
    have hx : x = a ∨ x = b := by simpa using h.mem_iff.mp (by simp)
    have hy : y = a ∨ y = b := by
      simpa using h.mem_iff.mp (by simp : y ∈ [x, y])
    have ha : a = x ∨ a = y := by simpa using h.mem_iff.mpr (by simp)
    have hb : b = x ∨ b = y := by
      simpa using h.mem_iff.mpr (by simp : b ∈ [a, b])
    rcases hx with hx | hx <;> rcases hy with hy | hy <;>
      rcases ha with ha | ha <;> rcases hb with hb | hb <;> subst_vars <;>
      simp_all

/-! ### Claim theorems -/

/-- C1: the size factor Pipeline B attaches for cell `i` is
`total_count(i) / mean(total_count)` where the totals are taken from the
original, unsubsetted expression matrix (first and second conjuncts), and
the subsetting steps leave the original matrix untouched — so the attached
vector coincides with the one obtained by computing the factors before any
gene subsetting, and subsetting cannot change it (third conjunct). -/
theorem size_factor_from_unsubsetted_totals (order refIndex : List String)
    (ms : Store Mat) (os : Store ObsTable) (a : AnnDataB)
    (hx : ms.valid a.xRef) (i : Nat)
    (hi : i < (ms.read a.xRef).length) :
    obsCol ((pipelineB order refIndex ms os a).2.1.read
        (pipelineB order refIndex ms os a).2.2.obsRef) "size_factor"
      = sizeFactors (ms.read a.xRef) ∧
    (obsCol ((pipelineB order refIndex ms os a).2.1.read
        (pipelineB order refIndex ms os a).2.2.obsRef) "size_factor").getD i 0
      = ((ms.read a.xRef).getD i []).sum / npMean (libSize (ms.read a.xRef)) ∧
    (pipelineB order refIndex ms os a).1.read a.xRef = ms.read a.xRef := by
  have hcol : obsCol ((pipelineB order refIndex ms os a).2.1.read
      (pipelineB order refIndex ms os a).2.2.obsRef) "size_factor"
        = sizeFactors (ms.read a.xRef) := by
    rw [pipelineB_read_subset_obs order refIndex ms os a hx, obsCol_cons_self]
  exact ⟨hcol, by rw [hcol, sizeFactors_getD _ _ hi],
    pipelineB_read_orig_X order refIndex ms os a hx⟩

/-- C1 witness: a concrete 2-cell, 2-gene dataset with totals 3 and 9. -/
theorem size_factor_from_unsubsetted_totals_witness :
    (Store.valid (⟨[[[1, 2], [4, 5]]]⟩ : Store Mat) 0 ∧
      0 < ((⟨[[[1, 2], [4, 5]]]⟩ : Store Mat).read 0).length) ∧
    (obsCol ((pipelineB ["g"] ["g"] ⟨[[[1, 2], [4, 5]]]⟩ ⟨[[]]⟩
        ⟨["g"], 0, 0⟩).2.1.read
        (pipelineB ["g"] ["g"] ⟨[[[1, 2], [4, 5]]]⟩ ⟨[[]]⟩
          ⟨["g"], 0, 0⟩).2.2.obsRef) "size_factor"
      = sizeFactors ((⟨[[[1, 2], [4, 5]]]⟩ : Store Mat).read 0) ∧
    (obsCol ((pipelineB ["g"] ["g"] ⟨[[[1, 2], [4, 5]]]⟩ ⟨[[]]⟩
        ⟨["g"], 0, 0⟩).2.1.read
        (pipelineB ["g"] ["g"] ⟨[[[1, 2], [4, 5]]]⟩ ⟨[[]]⟩
          ⟨["g"], 0, 0⟩).2.2.obsRef) "size_factor").getD 0 0
      = (((⟨[[[1, 2], [4, 5]]]⟩ : Store Mat).read 0).getD 0 []).sum
          / npMean (libSize ((⟨[[[1, 2], [4, 5]]]⟩ : Store Mat).read 0)) ∧
    (pipelineB ["g"] ["g"] ⟨[[[1, 2], [4, 5]]]⟩ ⟨[[]]⟩ ⟨["g"], 0, 0⟩).1.read 0
      = (⟨[[[1, 2], [4, 5]]]⟩ : Store Mat).read 0) :=
  ⟨⟨by decide, by decide⟩,
    size_factor_from_unsubsetted_totals ["g"] ["g"] ⟨[[[1, 2], [4, 5]]]⟩
      ⟨[[]]⟩ ⟨["g"], 0, 0⟩ (by decide) 0 (by decide)⟩

/-- C5: Pipeline A stores the layer `counts` as a fresh copy of the raw
matrix (first conjunct), and an arbitrary subsequent overwrite of the
working matrix `adata.X` leaves the stored layer unchanged (second
conjunct). -/
theorem counts_layer_copy_independent (ms : Store Mat) (a : AnnDataA)
    (hx : ms.valid a.xRef) (m : Mat) :
    (addCountsLayer ms a).1.read (layerRef (addCountsLayer ms a).2 "counts")
      = ms.read a.rawXRef ∧
    ((addCountsLayer ms a).1.write (addCountsLayer ms a).2.xRef m).read
      (layerRef (addCountsLayer ms a).2 "counts") = ms.read a.rawXRef := by
  have href : layerRef (addCountsLayer ms a).2 "counts" = ms.cells.length := by
    simp [addCountsLayer, layerRef, Store.alloc_snd, List.find?]
  have hxr : (addCountsLayer ms a).2.xRef = a.xRef := rfl
  have hread : (addCountsLayer ms a).1.read ms.cells.length
      = ms.read a.rawXRef := by
    have h := Store.read_alloc_new ms (ms.read a.rawXRef)
    rw [Store.alloc_snd] at h
    exact h
  refine ⟨by rw [href]; exact hread, ?_⟩
  rw [href, hxr, Store.read_write_ne _ _ _ _ (Nat.ne_of_lt hx)]
  exact hread

/-- C5 witness: a one-object store holding the raw matrix `[[7]]`,
overwritten working matrix `[[0]]`. -/
theorem counts_layer_copy_independent_witness :
    Store.valid (⟨[[[7]]]⟩ : Store Mat) 0 ∧
    ((addCountsLayer ⟨[[[7]]]⟩ ⟨0, 0, []⟩).1.read
        (layerRef (addCountsLayer ⟨[[[7]]]⟩ ⟨0, 0, []⟩).2 "counts")
      = (⟨[[[7]]]⟩ : Store Mat).read 0 ∧
    ((addCountsLayer ⟨[[[7]]]⟩ ⟨0, 0, []⟩).1.write
        (addCountsLayer ⟨[[[7]]]⟩ ⟨0, 0, []⟩).2.xRef [[0]]).read
      (layerRef (addCountsLayer ⟨[[[7]]]⟩ ⟨0, 0, []⟩).2 "counts")
      = (⟨[[[7]]]⟩ : Store Mat).read 0) :=
  ⟨by decide, counts_layer_copy_independent ⟨[[[7]]]⟩ ⟨0, 0, []⟩ (by decide) [[0]]⟩

/-- C6: the subsetted dataset of Pipeline B shares no state with the
original: after the whole preprocessing (subsetting, sparse conversion,
size-factor attachment) the original expression matrix and the original
per-cell metadata read back unchanged (first two conjuncts), and an
arbitrary further overwrite through the subset's matrix or metadata
reference still leaves the original's unchanged (last two conjuncts).  The
original's gene identifiers are held by value in the embedding and no step
rebinds them. -/
theorem subset_copy_no_aliasing (order refIndex : List String)
    (ms : Store Mat) (os : Store ObsTable) (a : AnnDataB)
    (hx : ms.valid a.xRef) (ho : os.valid a.obsRef) (m : Mat)
    (t : ObsTable) :
    (pipelineB order refIndex ms os a).1.read a.xRef = ms.read a.xRef ∧
    (pipelineB order refIndex ms os a).2.1.read a.obsRef
      = os.read a.obsRef ∧
    ((pipelineB order refIndex ms os a).1.write
        (pipelineB order refIndex ms os a).2.2.xRef m).read a.xRef
      = ms.read a.xRef ∧
    ((pipelineB order refIndex ms os a).2.1.write
        (pipelineB order refIndex ms os a).2.2.obsRef t).read a.obsRef
      = os.read a.obsRef := by
  have hx' : a.xRef < ms.cells.length := hx
  have ho' : a.obsRef < os.cells.length := ho
  have hne1 : (pipelineB order refIndex ms os a).2.2.xRef ≠ a.xRef := by
    rw [pipelineB_xRef]
    exact Nat.ne_of_gt (Nat.lt_succ_of_lt hx')
  have hne2 : (pipelineB order refIndex ms os a).2.2.obsRef ≠ a.obsRef := by
    rw [pipelineB_obsRef]
    exact Nat.ne_of_gt ho'
  refine ⟨pipelineB_read_orig_X order refIndex ms os a hx,
    pipelineB_read_orig_obs order refIndex ms os a ho, ?_, ?_⟩
  · rw [Store.read_write_ne _ _ _ _ hne1]
    exact pipelineB_read_orig_X order refIndex ms os a hx
  · rw [Store.read_write_ne _ _ _ _ hne2]
    exact pipelineB_read_orig_obs order refIndex ms os a ho

/-- C6 witness: one-cell dataset, overwriting the subset with zeros. -/
theorem subset_copy_no_aliasing_witness :
    (Store.valid (⟨[[[1, 2]]]⟩ : Store Mat) 0 ∧
      Store.valid (⟨[[("c", [5])]]⟩ : Store ObsTable) 0) ∧
    ((pipelineB ["g"] ["g"] ⟨[[[1, 2]]]⟩ ⟨[[("c", [5])]]⟩
        ⟨["g", "h"], 0, 0⟩).1.read 0 = (⟨[[[1, 2]]]⟩ : Store Mat).read 0 ∧
    (pipelineB ["g"] ["g"] ⟨[[[1, 2]]]⟩ ⟨[[("c", [5])]]⟩
        ⟨["g", "h"], 0, 0⟩).2.1.read 0
      = (⟨[[("c", [5])]]⟩ : Store ObsTable).read 0 ∧
    ((pipelineB ["g"] ["g"] ⟨[[[1, 2]]]⟩ ⟨[[("c", [5])]]⟩
        ⟨["g", "h"], 0, 0⟩).1.write
        (pipelineB ["g"] ["g"] ⟨[[[1, 2]]]⟩ ⟨[[("c", [5])]]⟩
          ⟨["g", "h"], 0, 0⟩).2.2.xRef [[0]]).read 0
      = (⟨[[[1, 2]]]⟩ : Store Mat).read 0 ∧
    ((pipelineB ["g"] ["g"] ⟨[[[1, 2]]]⟩ ⟨[[("c", [5])]]⟩
        ⟨["g", "h"], 0, 0⟩).2.1.write
        (pipelineB ["g"] ["g"] ⟨[[[1, 2]]]⟩ ⟨[[("c", [5])]]⟩
          ⟨["g", "h"], 0, 0⟩).2.2.obsRef []).read 0
      = (⟨[[("c", [5])]]⟩ : Store ObsTable).read 0) :=
  ⟨⟨by decide, by decide⟩,
    subset_copy_no_aliasing ["g"] ["g"] ⟨[[[1, 2]]]⟩ ⟨[[("c", [5])]]⟩
      ⟨["g", "h"], 0, 0⟩ (by decide) (by decide) [[0]] []⟩

/-- C10: Pipeline B subsetting removes only gene columns, never cells: the
subsetted matrix has exactly one row per original cell (first conjunct),
row `i` of the subset is row `i` of the original restricted to the shared
genes (second conjunct), the attached size-factor vector has exactly one
entry per cell (third conjunct), and entry `i` is derived from cell `i`'s
own total count (fourth conjunct); the subset's metadata table is the
original per-cell table with the factor column prepended (fifth
conjunct). -/
theorem subset_keeps_cells (order refIndex : List String) (ms : Store Mat)
    (os : Store ObsTable) (a : AnnDataB) (hx : ms.valid a.xRef) (i : Nat)
    (hi : i < (ms.read a.xRef).length) :
    ((pipelineB order refIndex ms os a).1.read
        (pipelineB order refIndex ms os a).2.2.xRef).length
      = (ms.read a.xRef).length ∧
    ((pipelineB order refIndex ms os a).1.read
        (pipelineB order refIndex ms os a).2.2.xRef).getD i []
      = (sharedGenes order refIndex a.var_names).map
          (colOf a.var_names ((ms.read a.xRef).getD i [])) ∧
    (obsCol ((pipelineB order refIndex ms os a).2.1.read
        (pipelineB order refIndex ms os a).2.2.obsRef) "size_factor").length
      = (ms.read a.xRef).length ∧
    (obsCol ((pipelineB order refIndex ms os a).2.1.read
        (pipelineB order refIndex ms os a).2.2.obsRef) "size_factor").getD i 0
      = ((ms.read a.xRef).getD i []).sum / npMean (libSize (ms.read a.xRef)) ∧
    (pipelineB order refIndex ms os a).2.1.read
        (pipelineB order refIndex ms os a).2.2.obsRef
      = ("size_factor", sizeFactors (ms.read a.xRef)) :: os.read a.obsRef := by
  have hX := pipelineB_read_subset_X order refIndex ms os a
  have hobs := pipelineB_read_subset_obs order refIndex ms os a hx
  have hcol : obsCol ((pipelineB order refIndex ms os a).2.1.read
      (pipelineB order refIndex ms os a).2.2.obsRef) "size_factor"
        = sizeFactors (ms.read a.xRef) := by
    rw [hobs, obsCol_cons_self]
  refine ⟨?_, ?_, ?_, ?_, hobs⟩
  · rw [hX, subsetX_length]
  · rw [hX, subsetX_getD _ _ _ _ hi]
  · rw [hcol, sizeFactors_length]
  · rw [hcol, sizeFactors_getD _ _ hi]

/-- C10 witness: a 2-cell, 2-gene dataset subset to one gene. -/
theorem subset_keeps_cells_witness :
    (Store.valid (⟨[[[1, 2], [4, 5]]]⟩ : Store Mat) 0 ∧
      1 < ((⟨[[[1, 2], [4, 5]]]⟩ : Store Mat).read 0).length) ∧
    (((pipelineB ["g"] ["g"] ⟨[[[1, 2], [4, 5]]]⟩ ⟨[[]]⟩
        ⟨["g", "h"], 0, 0⟩).1.read
        (pipelineB ["g"] ["g"] ⟨[[[1, 2], [4, 5]]]⟩ ⟨[[]]⟩
          ⟨["g", "h"], 0, 0⟩).2.2.xRef).length
      = ((⟨[[[1, 2], [4, 5]]]⟩ : Store Mat).read 0).length ∧
    ((pipelineB ["g"] ["g"] ⟨[[[1, 2], [4, 5]]]⟩ ⟨[[]]⟩
        ⟨["g", "h"], 0, 0⟩).1.read
        (pipelineB ["g"] ["g"] ⟨[[[1, 2], [4, 5]]]⟩ ⟨[[]]⟩
          ⟨["g", "h"], 0, 0⟩).2.2.xRef).getD 1 []
      = (sharedGenes ["g"] ["g"] ["g", "h"]).map
          (colOf ["g", "h"]
            (((⟨[[[1, 2], [4, 5]]]⟩ : Store Mat).read 0).getD 1 [])) ∧
    (obsCol ((pipelineB ["g"] ["g"] ⟨[[[1, 2], [4, 5]]]⟩ ⟨[[]]⟩
        ⟨["g", "h"], 0, 0⟩).2.1.read
        (pipelineB ["g"] ["g"] ⟨[[[1, 2], [4, 5]]]⟩ ⟨[[]]⟩
          ⟨["g", "h"], 0, 0⟩).2.2.obsRef) "size_factor").length
      = ((⟨[[[1, 2], [4, 5]]]⟩ : Store Mat).read 0).length ∧
    (obsCol ((pipelineB ["g"] ["g"] ⟨[[[1, 2], [4, 5]]]⟩ ⟨[[]]⟩
        ⟨["g", "h"], 0, 0⟩).2.1.read
        (pipelineB ["g"] ["g"] ⟨[[[1, 2], [4, 5]]]⟩ ⟨[[]]⟩
          ⟨["g", "h"], 0, 0⟩).2.2.obsRef) "size_factor").getD 1 0
      = ((((⟨[[[1, 2], [4, 5]]]⟩ : Store Mat).read 0).getD 1 []).sum
          / npMean (libSize ((⟨[[[1, 2], [4, 5]]]⟩ : Store Mat).read 0))) ∧
    (pipelineB ["g"] ["g"] ⟨[[[1, 2], [4, 5]]]⟩ ⟨[[]]⟩
        ⟨["g", "h"], 0, 0⟩).2.1.read
        (pipelineB ["g"] ["g"] ⟨[[[1, 2], [4, 5]]]⟩ ⟨[[]]⟩
          ⟨["g", "h"], 0, 0⟩).2.2.obsRef
      = ("size_factor",
          sizeFactors ((⟨[[[1, 2], [4, 5]]]⟩ : Store Mat).read 0))
          :: (⟨[[]]⟩ : Store ObsTable).read 0) :=
  ⟨⟨by decide, by decide⟩,
    subset_keeps_cells ["g"] ["g"] ⟨[[[1, 2], [4, 5]]]⟩ ⟨[[]]⟩
      ⟨["g", "h"], 0, 0⟩ (by decide) 1 (by decide)⟩

/-- C2: the shared-gene list of line 19 lists exactly the genes lying in
both the reference index and the dataset's variable names — as a set it is
their mathematical intersection (first conjunct) — and it is literally
unchanged when either input is replaced by any reordering or
re-duplication with the same members (second conjunct), since only
membership is consulted. -/
theorem shared_genes_is_intersection
    (order refIndex refIndex2 varNames varNames2 : List String)
    (hcov : ∀ g, g ∈ refIndex → g ∈ varNames → g ∈ order)
    (hr : ∀ g, g ∈ refIndex ↔ g ∈ refIndex2)
    (hv : ∀ g, g ∈ varNames ↔ g ∈ varNames2) :
    (sharedGenes order refIndex varNames).toFinset
      = refIndex.toFinset ∩ varNames.toFinset ∧
    sharedGenes order refIndex varNames
      = sharedGenes order refIndex2 varNames2 := by
  refine ⟨?_, List.filter_congr ?_⟩
  · ext g
    simp only [List.mem_toFinset, sharedGenes_mem, Finset.mem_inter]
    exact ⟨fun h => ⟨h.2.1, h.2.2⟩, fun h => ⟨hcov g h.1 h.2, h.1, h.2⟩⟩
  · intro g _
    simp [hr g, hv g]

/-- C2 witness: the reference given in one order with a duplicate, and
again in the other order without it. -/
theorem shared_genes_is_intersection_witness :
    ((∀ g : String, g ∈ ["b", "a"] → g ∈ ["b"] → g ∈ ["a", "b"]) ∧
      (∀ g : String, g ∈ ["b", "a"] ↔ g ∈ ["a", "b"]) ∧
      (∀ g : String, g ∈ ["b"] ↔ g ∈ ["b", "b"])) ∧
    ((sharedGenes ["a", "b"] ["b", "a"] ["b"]).toFinset
        = (["b", "a"] : List String).toFinset ∩ (["b"] : List String).toFinset ∧
      sharedGenes ["a", "b"] ["b", "a"] ["b"]
        = sharedGenes ["a", "b"] ["a", "b"] ["b", "b"]) :=
  ⟨⟨fun g hg _ => by simpa using (by simpa using hg : g = "b" ∨ g = "a").symm,
    fun g => by simp; tauto, fun g => by simp⟩,
    shared_genes_is_intersection ["a", "b"] ["b", "a"] ["a", "b"] ["b"]
      ["b", "b"]
      (fun g hg _ => by simpa using (by simpa using hg : g = "b" ∨ g = "a").symm)
      (fun g => by simp; tauto) (fun g => by simp)⟩

/-- C3 (divergence from the claim): with a reference and a dataset sharing
no genes, the script raises nothing of its own — whatever the iteration
order of the run, the shared list is empty, the dataset registered with
the external library has zero genes, and a size-factor column is still
attached.  The embedding of lines 19-25 is total because the code has no
check and no error path before the model calls. -/
theorem empty_intersection_not_rejected (order : List String) :
    sharedGenes order ["MARKER"] ["OTHER"] = [] ∧
    (pipelineB order ["MARKER"] ⟨[[[5]]]⟩ ⟨[[]]⟩
        ⟨["OTHER"], 0, 0⟩).2.2.var_names = [] ∧
    obsCol ((pipelineB order ["MARKER"] ⟨[[[5]]]⟩ ⟨[[]]⟩
        ⟨["OTHER"], 0, 0⟩).2.1.read
        (pipelineB order ["MARKER"] ⟨[[[5]]]⟩ ⟨[[]]⟩
          ⟨["OTHER"], 0, 0⟩).2.2.obsRef) "size_factor" = [1] := by
  have hsh : sharedGenes order ["MARKER"] ["OTHER"] = [] := by
    rw [sharedGenes, List.filter_eq_nil_iff]
    intro g hg
    simp
    rintro rfl
    decide
  refine ⟨hsh, ?_, ?_⟩
  · rw [pipelineB_var_names]
    exact hsh
  · rw [pipelineB_read_subset_obs _ _ _ _ _ (by decide), obsCol_cons_self]
    show sizeFactors [[5]] = [1]
    norm_num [sizeFactors, sizeFactorVec, libSize, npMean]

/-- C4 (divergence from the claim): on an all-zero dataset the mean total
count is zero, yet the pipeline runs to completion with no degeneracy
check: the zero-denominator division result (nan in the numpy run; the
division-by-zero convention of the rationals here) is attached as the
size-factor column and the subset is handed on — no error exists in the
code. -/
theorem zero_mean_not_rejected :
    npMean (libSize [[0], [0]]) = 0 ∧
    (pipelineB ["G1"] ["G1"] ⟨[[[0], [0]]]⟩ ⟨[[]]⟩
        ⟨["G1"], 0, 0⟩).2.2.var_names = ["G1"] ∧
    obsCol ((pipelineB ["G1"] ["G1"] ⟨[[[0], [0]]]⟩ ⟨[[]]⟩
        ⟨["G1"], 0, 0⟩).2.1.read
        (pipelineB ["G1"] ["G1"] ⟨[[[0], [0]]]⟩ ⟨[[]]⟩
          ⟨["G1"], 0, 0⟩).2.2.obsRef) "size_factor" = [0, 0] := by
  refine ⟨by norm_num [npMean, libSize], by decide, ?_⟩
  rw [pipelineB_read_subset_obs _ _ _ _ _ (by decide), obsCol_cons_self]
  show sizeFactors [[0], [0]] = [0, 0]
  norm_num [sizeFactors, sizeFactorVec, libSize, npMean]

/-- C8: scvi.py hands the external model exactly the fixed parameters:
random seed 2024, counts taken from the layer named counts, batch key the
sample identifier column sample_id, 2 hidden layers, 30 latent dimensions,
and the negative-binomial (nb) gene likelihood. -/
theorem pipelineA_fixed_parameters :
    pipelineACalls.seed = 2024 ∧
    pipelineACalls.setup.layer = "counts" ∧
    pipelineACalls.setup.batch_key = "sample_id" ∧
    pipelineACalls.model.n_layers = 2 ∧
    pipelineACalls.model.n_latent = 30 ∧
    pipelineACalls.model.gene_likelihood = "nb" :=
  ⟨rfl, rfl, rfl, rfl, rfl, rfl⟩

/-- C9 counterexample: two runs on identical input files can disagree.
The iteration order of a Python set of strings is not a function of the
set's contents (string hashing is randomized per process and the scripts
never pin it), and line 19 turns that order into the ordered shared-gene
list: a run iterating G1 before G2 registers the matrix with columns
(G1, G2), a run iterating G2 before G1 registers (G2, G1) — different
ordered artifacts from the same files. -/
theorem runs_can_differ_in_gene_order :
    sharedGenes ["G1", "G2"] ["G1", "G2"] ["G1", "G2"]
      ≠ sharedGenes ["G2", "G1"] ["G1", "G2"] ["G1", "G2"] ∧
    (pipelineB ["G1", "G2"] ["G1", "G2"] ⟨[[[1, 2]]]⟩ ⟨[[]]⟩
        ⟨["G1", "G2"], 0, 0⟩).1.read
        (pipelineB ["G1", "G2"] ["G1", "G2"] ⟨[[[1, 2]]]⟩ ⟨[[]]⟩
          ⟨["G1", "G2"], 0, 0⟩).2.2.xRef
      ≠ (pipelineB ["G2", "G1"] ["G1", "G2"] ⟨[[[1, 2]]]⟩ ⟨[[]]⟩
        ⟨["G1", "G2"], 0, 0⟩).1.read
        (pipelineB ["G2", "G1"] ["G1", "G2"] ⟨[[[1, 2]]]⟩ ⟨[[]]⟩
          ⟨["G1", "G2"], 0, 0⟩).2.2.xRef := by
  decide

/-- C9 amended: with the set-iteration order fixed, the preprocessing is a
pure function of its inputs, and across two runs with arbitrary valid
iteration orders the two shared-gene lists are permutations of one
another: the shared-gene set — though not its order, and hence not the
column order of the registered matrix — is run-independent. -/
theorem shared_genes_same_up_to_order
    (o1 o2 refIndex varNames : List String)
    (h1 : o1.Nodup) (h2 : o2.Nodup)
    (c1 : ∀ g, g ∈ refIndex → g ∈ varNames → g ∈ o1)
    (c2 : ∀ g, g ∈ refIndex → g ∈ varNames → g ∈ o2) :
    (sharedGenes o1 refIndex varNames).Perm
      (sharedGenes o2 refIndex varNames) := by
  apply List.perm_of_nodup_nodup_toFinset_eq
    (sharedGenes_nodup _ _ _ h1) (sharedGenes_nodup _ _ _ h2)
  ext g
  simp only [List.mem_toFinset, sharedGenes_mem]
  constructor
  · rintro ⟨-, hg1, hg2⟩
    exact ⟨c2 g hg1 hg2, hg1, hg2⟩
  · rintro ⟨-, hg1, hg2⟩
    exact ⟨c1 g hg1 hg2, hg1, hg2⟩

/-- C9 amended witness: the two iteration orders of the counterexample
yield permuted shared-gene lists. -/
theorem shared_genes_same_up_to_order_witness :
    ((["G1", "G2"] : List String).Nodup ∧
      (["G2", "G1"] : List String).Nodup ∧
      (∀ g : String, g ∈ ["G1", "G2"] → g ∈ ["G1", "G2"] →
        g ∈ ["G1", "G2"]) ∧
      (∀ g : String, g ∈ ["G1", "G2"] → g ∈ ["G1", "G2"] →
        g ∈ ["G2", "G1"])) ∧
    (sharedGenes ["G1", "G2"] ["G1", "G2"] ["G1", "G2"]).Perm
      (sharedGenes ["G2", "G1"] ["G1", "G2"] ["G1", "G2"]) :=
  ⟨⟨by decide, by decide, fun g hg _ => hg,
    fun g hg _ => by simpa using (by simpa using hg : g = "G1" ∨ g = "G2").symm⟩,
    shared_genes_same_up_to_order ["G1", "G2"] ["G2", "G1"] ["G1", "G2"]
      ["G1", "G2"] (by decide) (by decide) (fun g hg _ => hg)
      (fun g hg _ => by simpa using (by simpa using hg : g = "G1" ∨ g = "G2").symm)⟩

/-- C7: end-to-end Pipeline B scenario.  For the reference with genes
G1, G2 and a dataset with genes G1, G2, G3 whose per-cell totals are
10, 20, 30, any run — any duplicate-free iteration order containing the
two shared identifiers — computes the shared-gene set {G1, G2}, the mean
total 20, attaches the size factors 1/2, 1, 3/2 to the three original
cells in order, and registers a matrix holding for each of the three cells
exactly its original G1 and G2 values (in the run's gene order). -/
theorem pipelineB_end_to_end (order : List String) (hnd : order.Nodup)
    (h1 : "G1" ∈ order) (h2 : "G2" ∈ order) :
    (sharedGenes order ["G1", "G2"] ["G1", "G2", "G3"]).toFinset
      = {"G1", "G2"} ∧
    npMean (libSize [[2, 3, 5], [4, 6, 10], [6, 9, 15]]) = 20 ∧
    obsCol ((pipelineB order ["G1", "G2"]
        ⟨[[[2, 3, 5], [4, 6, 10], [6, 9, 15]]]⟩ ⟨[[]]⟩
        ⟨["G1", "G2", "G3"], 0, 0⟩).2.1.read
        (pipelineB order ["G1", "G2"]
          ⟨[[[2, 3, 5], [4, 6, 10], [6, 9, 15]]]⟩ ⟨[[]]⟩
          ⟨["G1", "G2", "G3"], 0, 0⟩).2.2.obsRef) "size_factor"
      = [1 / 2, 1, 3 / 2] ∧
    ((pipelineB order ["G1", "G2"]
          ⟨[[[2, 3, 5], [4, 6, 10], [6, 9, 15]]]⟩ ⟨[[]]⟩
          ⟨["G1", "G2", "G3"], 0, 0⟩).2.2.var_names = ["G1", "G2"] ∧
        (pipelineB order ["G1", "G2"]
          ⟨[[[2, 3, 5], [4, 6, 10], [6, 9, 15]]]⟩ ⟨[[]]⟩
          ⟨["G1", "G2", "G3"], 0, 0⟩).1.read
          (pipelineB order ["G1", "G2"]
            ⟨[[[2, 3, 5], [4, 6, 10], [6, 9, 15]]]⟩ ⟨[[]]⟩
            ⟨["G1", "G2", "G3"], 0, 0⟩).2.2.xRef
          = [[2, 3], [4, 6], [6, 9]] ∨
      (pipelineB order ["G1", "G2"]
          ⟨[[[2, 3, 5], [4, 6, 10], [6, 9, 15]]]⟩ ⟨[[]]⟩
          ⟨["G1", "G2", "G3"], 0, 0⟩).2.2.var_names = ["G2", "G1"] ∧
        (pipelineB order ["G1", "G2"]
          ⟨[[[2, 3, 5], [4, 6, 10], [6, 9, 15]]]⟩ ⟨[[]]⟩
          ⟨["G1", "G2", "G3"], 0, 0⟩).1.read
          (pipelineB order ["G1", "G2"]
            ⟨[[[2, 3, 5], [4, 6, 10], [6, 9, 15]]]⟩ ⟨[[]]⟩
            ⟨["G1", "G2", "G3"], 0, 0⟩).2.2.xRef
          = [[3, 2], [6, 4], [9, 6]]) := by
  have hmem : ∀ g, g ∈ sharedGenes order ["G1", "G2"] ["G1", "G2", "G3"] ↔
      (g = "G1" ∨ g = "G2") := by
    intro g
    rw [sharedGenes_mem]
    constructor
    · rintro ⟨-, hg, -⟩
      simpa using hg
    · rintro (rfl | rfl)
      · exact ⟨h1, by decide, by decide⟩
      · exact ⟨h2, by decide, by decide⟩
  have hfin : (sharedGenes order ["G1", "G2"] ["G1", "G2", "G3"]).toFinset
      = {"G1", "G2"} := by
    ext g
    simp [hmem g]
  have hperm : (sharedGenes order ["G1", "G2"] ["G1", "G2", "G3"]).Perm
      ["G1", "G2"] := by
    apply List.perm_of_nodup_nodup_toFinset_eq
      (sharedGenes_nodup _ _ _ hnd) (by decide)
    rw [hfin]
    decide
  refine ⟨hfin, by norm_num [npMean, libSize], ?_, ?_⟩
  · rw [pipelineB_read_subset_obs _ _ _ _ _ (by decide), obsCol_cons_self]
    show sizeFactors [[2, 3, 5], [4, 6, 10], [6, 9, 15]] = [1 / 2, 1, 3 / 2]
    norm_num [sizeFactors, sizeFactorVec, libSize, npMean]
  · rcases pair_perm_cases hperm with hs | hs
    · refine Or.inl ⟨?_, ?_⟩
      · rw [pipelineB_var_names]
        exact hs
      · rw [pipelineB_read_subset_X, hs]
        decide
    · refine Or.inr ⟨?_, ?_⟩
      · rw [pipelineB_var_names]
        exact hs
      · rw [pipelineB_read_subset_X, hs]
        decide

/-- C7 witness: the run whose iteration order is G1, G2, G3. -/
theorem pipelineB_end_to_end_witness :
    ((["G1", "G2", "G3"] : List String).Nodup ∧
      "G1" ∈ (["G1", "G2", "G3"] : List String) ∧
      "G2" ∈ (["G1", "G2", "G3"] : List String)) ∧
    ((sharedGenes ["G1", "G2", "G3"] ["G1", "G2"]
        ["G1", "G2", "G3"]).toFinset = {"G1", "G2"} ∧
    npMean (libSize [[2, 3, 5], [4, 6, 10], [6, 9, 15]]) = 20 ∧
    obsCol ((pipelineB ["G1", "G2", "G3"] ["G1", "G2"]
        ⟨[[[2, 3, 5], [4, 6, 10], [6, 9, 15]]]⟩ ⟨[[]]⟩
        ⟨["G1", "G2", "G3"], 0, 0⟩).2.1.read
        (pipelineB ["G1", "G2", "G3"] ["G1", "G2"]
          ⟨[[[2, 3, 5], [4, 6, 10], [6, 9, 15]]]⟩ ⟨[[]]⟩
          ⟨["G1", "G2", "G3"], 0, 0⟩).2.2.obsRef) "size_factor"
      = [1 / 2, 1, 3 / 2] ∧
    ((pipelineB ["G1", "G2", "G3"] ["G1", "G2"]
          ⟨[[[2, 3, 5], [4, 6, 10], [6, 9, 15]]]⟩ ⟨[[]]⟩
          ⟨["G1", "G2", "G3"], 0, 0⟩).2.2.var_names = ["G1", "G2"] ∧
        (pipelineB ["G1", "G2", "G3"] ["G1", "G2"]
          ⟨[[[2, 3, 5], [4, 6, 10], [6, 9, 15]]]⟩ ⟨[[]]⟩
          ⟨["G1", "G2", "G3"], 0, 0⟩).1.read
          (pipelineB ["G1", "G2", "G3"] ["G1", "G2"]
            ⟨[[[2, 3, 5], [4, 6, 10], [6, 9, 15]]]⟩ ⟨[[]]⟩
            ⟨["G1", "G2", "G3"], 0, 0⟩).2.2.xRef
          = [[2, 3], [4, 6], [6, 9]] ∨
      (pipelineB ["G1", "G2", "G3"] ["G1", "G2"]
          ⟨[[[2, 3, 5], [4, 6, 10], [6, 9, 15]]]⟩ ⟨[[]]⟩
          ⟨["G1", "G2", "G3"], 0, 0⟩).2.2.var_names = ["G2", "G1"] ∧
        (pipelineB ["G1", "G2", "G3"] ["G1", "G2"]
          ⟨[[[2, 3, 5], [4, 6, 10], [6, 9, 15]]]⟩ ⟨[[]]⟩
          ⟨["G1", "G2", "G3"], 0, 0⟩).1.read
          (pipelineB ["G1", "G2", "G3"] ["G1", "G2"]
            ⟨[[[2, 3, 5], [4, 6, 10], [6, 9, 15]]]⟩ ⟨[[]]⟩
            ⟨["G1", "G2", "G3"], 0, 0⟩).2.2.xRef
          = [[3, 2], [6, 4], [9, 6]])) :=
  ⟨⟨by decide, by decide, by decide⟩,
    pipelineB_end_to_end ["G1", "G2", "G3"] (by decide) (by decide)
      (by decide)⟩

end OpenScPCA
